import Mathlib

/-!
# Verification of the gigachat client's authenticated dispatch and SSE decoding

Shallow embedding of `src/gigachat/client.py`, `src/gigachat/api/post_chat.py`
and `src/gigachat/api/stream_chat.py`.

The external HTTP transport is modelled as an oracle (`Env` / `StreamEnv`)
supplying the outcome of each transport attempt and of the token-refresh
network call; pydantic body parsing (`ChatCompletionChunk.parse_raw`,
`ChatCompletion(**json)`) is an abstract parameter `parseRaw : String → Option α`
(a `none` result is a raised validation error).  Everything else — the token
lifecycle, the retry-once dispatch in `_decorator` / `_adecorator`, the
streaming dispatch in `stream` / `astream`, the SSE line decoding in
`_parse_chunk`, the response classification in `_build_response` /
`_check_response` / `_check_content_type`, and the header construction in the
two `_get_kwargs` functions — is translated directly from the source.
-/

namespace GigaChat

/-- Error taxonomy of `gigachat.exceptions` plus the two errors raised by the
streaming path: `httpx.TransportError` on a content-type mismatch and a
pydantic validation error on an unparsable `data:` line. -/
inductive Err where
  | auth
  | response
  | transport
  | chunkDecode
  | authBackend
deriving DecidableEq, Repr

/-- `gigachat.models.AccessToken`: a credential string plus expiry instant. -/
structure AccessToken where
  access_token : String
  expires_at : Int
deriving DecidableEq, Repr

/-- The subset of `gigachat.settings.Settings` read by the dispatcher:
`use_auth`, and the refresh-strategy fields `credentials` (OAuth) and
`user`/`password` (password grant). -/
structure Settings where
  use_auth : Bool
  credentials : Option String
  scope : String
  user : Option String
  password : Option String
deriving DecidableEq, Repr

/-- Python truthiness of an `Optional[str]`: `None` and `""` are falsy. -/
def truthyOpt : Option String → Bool
  | none => false
  | some s => s != ""

/-- The mutable state of `_BaseClient`: its settings and the held
`_access_token` (or `None`). -/
structure ClientState where
  settings : Settings
  access_token : Option AccessToken
deriving DecidableEq, Repr

/-- The `token` property of `_BaseClient`: the bearer credential to attach, or
`None` when authentication is disabled or no token is held. -/
def ClientState.token (c : ClientState) : Option String :=
  match c.settings.use_auth, c.access_token with
  | true, some t => some t.access_token
  | _, _ => none

/-- `_BaseClient._check_validity_token`: presence check only (no expiry
comparison in the source). -/
def checkValidityToken (c : ClientState) : Bool :=
  c.access_token.isSome

/-- `_BaseClient._reset_token`: discard the held token. -/
def resetToken (c : ClientState) : ClientState :=
  { c with access_token := none }

/-- Observable actions of a dispatch, used to count transport attempts, token
resets and refresh (`_update_token`) invocations. -/
inductive Event where
  | attemptCall (cred : Option String)
  | tokenReset
  | tokenRefresh
deriving DecidableEq, Repr

def isAttemptEvent : Event → Bool
  | .attemptCall _ => true
  | _ => false

def isRefreshEvent : Event → Bool
  | .tokenRefresh => true
  | _ => false

def countAttempts (evs : List Event) : Nat :=
  evs.countP isAttemptEvent

def countRefreshes (evs : List Event) : Nat :=
  evs.countP isRefreshEvent

/-- Transport oracle for a non-streaming logical call: `attempt k cred` is the
outcome of the `k`-th transport attempt issued with credential `cred`, and
`refresh` is the network outcome of whichever refresh strategy runs inside
`_update_token` / `_aupdate_token`. -/
structure Env (α : Type) where
  attempt : Nat → Option String → Except Err α
  refresh : Except Err AccessToken

/-- `GigaChatSyncClient._update_token`: if `credentials` is truthy run the
OAuth exchange, else if `user` and `password` are truthy run the password
exchange, else do nothing; a failed exchange propagates, a successful one
replaces the held token wholesale. -/
def updateToken (refresh : Except Err AccessToken) (c : ClientState) :
    Except Err ClientState :=
  if truthyOpt c.settings.credentials then
    match refresh with
    | .ok t => .ok { c with access_token := some t }
    | .error e => .error e
  else if truthyOpt c.settings.user && truthyOpt c.settings.password then
    match refresh with
    | .ok t => .ok { c with access_token := some t }
    | .error e => .error e
  else
    .ok c

/-- `GigaChatAsyncClient._aupdate_token`: the async variant, awaiting the same
two exchanges. -/
def aupdateToken (refresh : Except Err AccessToken) (c : ClientState) :
    Except Err ClientState :=
  if truthyOpt c.settings.credentials then
    match refresh with
    | .ok t => .ok { c with access_token := some t }
    | .error e => .error e
  else if truthyOpt c.settings.user && truthyOpt c.settings.password then
    match refresh with
    | .ok t => .ok { c with access_token := some t }
    | .error e => .error e
  else
    .ok c

/-- `GigaChatSyncClient._decorator`: run the call; on `AuthenticationError`
with a held token, reset the token, refresh, and run the call exactly once
more, whose outcome is returned unconditionally.  Returns the result, the
final client state, and the trace of observable events. -/
def dispatchSync {α : Type} (env : Env α) (c : ClientState) :
    Except Err α × ClientState × List Event :=
  if c.settings.use_auth then
    if checkValidityToken c then
      match env.attempt 0 c.token with
      | .ok v => (.ok v, c, [.attemptCall c.token])
      | .error Err.auth =>
        let c1 := resetToken c
        match updateToken env.refresh c1 with
        | .error re =>
          (.error re, c1, [.attemptCall c.token, .tokenReset, .tokenRefresh])
        | .ok c2 =>
          (env.attempt 1 c2.token, c2,
            [.attemptCall c.token, .tokenReset, .tokenRefresh,
             .attemptCall c2.token])
      | .error e => (.error e, c, [.attemptCall c.token])
    else
      match updateToken env.refresh c with
      | .error re => (.error re, c, [.tokenRefresh])
      | .ok c2 =>
        (env.attempt 0 c2.token, c2, [.tokenRefresh, .attemptCall c2.token])
  else
    (env.attempt 0 c.token, c, [.attemptCall c.token])

/-- `GigaChatAsyncClient._adecorator`: the async variant of the dispatcher,
awaiting the call and `_aupdate_token` at the same program points. -/
def dispatchAsync {α : Type} (env : Env α) (c : ClientState) :
    Except Err α × ClientState × List Event :=
  if c.settings.use_auth then
    if checkValidityToken c then
      match env.attempt 0 c.token with
      | .ok v => (.ok v, c, [.attemptCall c.token])
      | .error Err.auth =>
        let c1 := resetToken c
        match aupdateToken env.refresh c1 with
        | .error re =>
          (.error re, c1, [.attemptCall c.token, .tokenReset, .tokenRefresh])
        | .ok c2 =>
          (env.attempt 1 c2.token, c2,
            [.attemptCall c.token, .tokenReset, .tokenRefresh,
             .attemptCall c2.token])
      | .error e => (.error e, c, [.attemptCall c.token])
    else
      match aupdateToken env.refresh c with
      | .error re => (.error re, c, [.tokenRefresh])
      | .ok c2 =>
        (env.attempt 0 c2.token, c2, [.tokenRefresh, .attemptCall c2.token])
  else
    (env.attempt 0 c.token, c, [.attemptCall c.token])

/-! ## SSE decoding (`stream_chat.py`) -/

/-- First occurrence split: `firstSplit sep s = some (pre, post)` when
`s = pre ++ sep ++ post` with `pre` the shortest such; `none` when `sep` does
not occur.  This is the search done by Python's `str.partition`. -/
def firstSplit (sep : List Char) : List Char → Option (List Char × List Char)
  | [] => none
  | c :: cs =>
    if sep.isPrefixOf (c :: cs) then some ([], (c :: cs).drop sep.length)
    else
      match firstSplit sep cs with
      | some (pre, post) => some (c :: pre, post)
      | none => none

/-- Python's `s.partition(sep)`, keeping the parts before and after the first
occurrence of `sep`; when `sep` is absent the whole string is the first part
and the second part is empty (the source never reads the middle component). -/
def pyPartition (s sep : String) : String × String :=
  match firstSplit sep.data s.data with
  | some (pre, post) => (String.mk pre, String.mk post)
  | none => (s, "")

/-- `stream_chat.EVENT_STREAM`. -/
def EVENT_STREAM : String := "text/event-stream"

/-- `stream_chat._parse_chunk`: split the line at the first `": "`; a
non-`data` field yields nothing, a `data` field with value `[DONE]` yields
nothing, any other `data` value is parsed — a parse failure is a raised
error. -/
def parseChunkLine {α : Type} (parseRaw : String → Option α) (line : String) :
    Except Err (Option α) :=
  let p := pyPartition line ": "
  if p.1 = "data" then
    if p.2 = "[DONE]" then .ok none
    else
      match parseRaw p.2 with
      | some chunk => .ok (some chunk)
      | none => .error .chunkDecode
  else
    .ok none

/-- The line loop of `stream_chat.sync` / `stream_chat.asyncio`:
`for line in lines: if chunk := _parse_chunk(line): yield chunk`.  Returns the
chunks yielded in order and the error terminating the sequence, if any. -/
def decodeLines {α : Type} (parseRaw : String → Option α) :
    List String → List α × Option Err
  | [] => ([], none)
  | line :: rest =>
    match parseChunkLine parseRaw line with
    | .error e => ([], some e)
    | .ok none => decodeLines parseRaw rest
    | .ok (some chunk) =>
      let r := decodeLines parseRaw rest
      (chunk :: r.1, r.2)

/-- A streaming HTTP response as seen by `stream_chat`: status code, the raw
`content-type` header (`""` when absent, as `headers.get("content-type", "")`),
and the body lines. -/
structure StreamResp where
  status : Nat
  content_type : String
  lines : List String

/-- `stream_chat._check_content_type`: the header value up to the first `";"`
must equal `EVENT_STREAM` exactly, otherwise `httpx.TransportError`. -/
def checkContentType (resp : StreamResp) : Except Err Unit :=
  if (pyPartition resp.content_type ";").1 = EVENT_STREAM then .ok ()
  else .error .transport

/-- `stream_chat._check_response`: `200 OK` checks the content type,
`401 UNAUTHORIZED` raises `AuthenticationError`, anything else raises
`ResponseError`. -/
def checkResponse (resp : StreamResp) : Except Err Unit :=
  if resp.status = 200 then checkContentType resp
  else if resp.status = 401 then .error .auth
  else .error .response

/-- `stream_chat.sync` on an already-obtained response: an `Except.error`
means the generator raised before yielding anything (at stream open); an
`Except.ok (chunks, e?)` means it yielded `chunks` and then either finished
cleanly (`none`) or raised mid-stream (`some e`). -/
def streamChatRun {α : Type} (parseRaw : String → Option α) (resp : StreamResp) :
    Except Err (List α × Option Err) :=
  match checkResponse resp with
  | .error e => .error e
  | .ok _ => .ok (decodeLines parseRaw resp.lines)

/-- Transport oracle for a streaming logical call: `attempt k cred` is the
response to the `k`-th stream open with credential `cred`; `refresh` as in
`Env`. -/
structure StreamEnv where
  attempt : Nat → Option String → StreamResp
  refresh : Except Err AccessToken

/-- `GigaChatSyncClient.stream`: with a held token, open the stream and yield
its chunks inside `try/except AuthenticationError`; an auth failure (possible
only at open, before any yield) resets the token, refreshes, and reopens once,
whose chunks and terminal outcome are surfaced unconditionally.  Returns the
yielded chunks with the terminal error (if any), the final state, and the
event trace. -/
def streamSync {α : Type} (parseRaw : String → Option α) (env : StreamEnv)
    (c : ClientState) : (List α × Option Err) × ClientState × List Event :=
  if c.settings.use_auth then
    if checkValidityToken c then
      match streamChatRun parseRaw (env.attempt 0 c.token) with
      | .ok res => (res, c, [.attemptCall c.token])
      | .error Err.auth =>
        let c1 := resetToken c
        match updateToken env.refresh c1 with
        | .error re =>
          (([], some re), c1, [.attemptCall c.token, .tokenReset, .tokenRefresh])
        | .ok c2 =>
          match streamChatRun parseRaw (env.attempt 1 c2.token) with
          | .ok res =>
            (res, c2, [.attemptCall c.token, .tokenReset, .tokenRefresh,
              .attemptCall c2.token])
          | .error e2 =>
            (([], some e2), c2, [.attemptCall c.token, .tokenReset,
              .tokenRefresh, .attemptCall c2.token])
      | .error e => (([], some e), c, [.attemptCall c.token])
    else
      match updateToken env.refresh c with
      | .error re => (([], some re), c, [.tokenRefresh])
      | .ok c2 =>
        match streamChatRun parseRaw (env.attempt 0 c2.token) with
        | .ok res => (res, c2, [.tokenRefresh, .attemptCall c2.token])
        | .error e2 =>
          (([], some e2), c2, [.tokenRefresh, .attemptCall c2.token])
  else
    match streamChatRun parseRaw (env.attempt 0 c.token) with
    | .ok res => (res, c, [.attemptCall c.token])
    | .error e => (([], some e), c, [.attemptCall c.token])

/-- `GigaChatAsyncClient.astream`: the async variant, identical control flow
with `async for` and `await self._aupdate_token()`. -/
def streamAsync {α : Type} (parseRaw : String → Option α) (env : StreamEnv)
    (c : ClientState) : (List α × Option Err) × ClientState × List Event :=
  if c.settings.use_auth then
    if checkValidityToken c then
      match streamChatRun parseRaw (env.attempt 0 c.token) with
      | .ok res => (res, c, [.attemptCall c.token])
      | .error Err.auth =>
        let c1 := resetToken c
        match aupdateToken env.refresh c1 with
        | .error re =>
          (([], some re), c1, [.attemptCall c.token, .tokenReset, .tokenRefresh])
        | .ok c2 =>
          match streamChatRun parseRaw (env.attempt 1 c2.token) with
          | .ok res =>
            (res, c2, [.attemptCall c.token, .tokenReset, .tokenRefresh,
              .attemptCall c2.token])
          | .error e2 =>
            (([], some e2), c2, [.attemptCall c.token, .tokenReset,
              .tokenRefresh, .attemptCall c2.token])
      | .error e => (([], some e), c, [.attemptCall c.token])
    else
      match aupdateToken env.refresh c with
      | .error re => (([], some re), c, [.tokenRefresh])
      | .ok c2 =>
        match streamChatRun parseRaw (env.attempt 0 c2.token) with
        | .ok res => (res, c2, [.tokenRefresh, .attemptCall c2.token])
        | .error e2 =>
          (([], some e2), c2, [.tokenRefresh, .attemptCall c2.token])
  else
    match streamChatRun parseRaw (env.attempt 0 c.token) with
    | .ok res => (res, c, [.attemptCall c.token])
    | .error e => (([], some e), c, [.attemptCall c.token])

/-! ## Non-streaming response classification and headers (`post_chat.py`) -/

/-- A non-streaming HTTP response: status code and body. -/
structure Resp where
  status : Nat
  body : String

/-- `post_chat._build_response`: `200 OK` parses the body into a completion,
`401 UNAUTHORIZED` raises `AuthenticationError`, anything else raises
`ResponseError`. -/
def buildResponse {β : Type} (parse : String → β) (resp : Resp) :
    Except Err β :=
  if resp.status = 200 then .ok (parse resp.body)
  else if resp.status = 401 then .error .auth
  else .error .response

/-- `post_chat._get_kwargs` headers: each header is added only when its value
is truthy; `Authorization` carries `f"Bearer {access_token}"`. -/
def postChatHeaders (access_token client_id session_id request_id : Option String) :
    List (String × String) :=
  (if truthyOpt access_token then
    [("Authorization", "Bearer " ++ access_token.getD "")] else [])
  ++ (if truthyOpt client_id then [("X-Client-ID", client_id.getD "")] else [])
  ++ (if truthyOpt session_id then [("X-Session-ID", session_id.getD "")] else [])
  ++ (if truthyOpt request_id then [("X-Request-ID", request_id.getD "")] else [])

/-- `stream_chat._get_kwargs` headers: `Accept` and `Cache-Control` are always
present, the rest as in `post_chat._get_kwargs`. -/
def streamChatHeaders (access_token client_id session_id request_id : Option String) :
    List (String × String) :=
  [("Accept", EVENT_STREAM), ("Cache-Control", "no-store")]
  ++ (if truthyOpt access_token then
    [("Authorization", "Bearer " ++ access_token.getD "")] else [])
  ++ (if truthyOpt client_id then [("X-Client-ID", client_id.getD "")] else [])
  ++ (if truthyOpt session_id then [("X-Session-ID", session_id.getD "")] else [])
  ++ (if truthyOpt request_id then [("X-Request-ID", request_id.getD "")] else [])

/-- Whether a header list carries an `Authorization` entry. -/
def hasAuthHeader (hs : List (String × String)) : Bool :=
  hs.any (fun p => p.1 == "Authorization")

/-! ## Concrete fixtures used by witnesses and counterexamples -/

/-- A concrete instance of the abstract chunk parse: recognises the payloads
`"1"` and `"2"`, rejects everything else. -/
def sampleParse (s : String) : Option Nat :=
  if s = "1" then some 1 else if s = "2" then some 2 else none

def tokT1 : AccessToken := { access_token := "t1", expires_at := 0 }

def tokT2 : AccessToken := { access_token := "t2", expires_at := 9 }

/-- Settings with authentication on and the OAuth refresh strategy. -/
def settingsOAuth : Settings :=
  { use_auth := true, credentials := some "cred", scope := "GIGACHAT_API_PERS",
    user := none, password := none }

/-- A client holding token `t1`, authentication enabled. -/
def stateHeld : ClientState :=
  { settings := settingsOAuth, access_token := some tokT1 }

/-- A client holding token `t1`, authentication disabled. -/
def stateNoAuth : ClientState :=
  { settings := { settingsOAuth with use_auth := false },
    access_token := some tokT1 }

/-- `stateHeld` after a successful refresh to `t2`. -/
def stateUpd : ClientState :=
  { settings := settingsOAuth, access_token := some tokT2 }

/-- Transport oracle: every attempt succeeds with `7`. -/
def envOk : Env Nat := { attempt := fun _ _ => .ok 7, refresh := .ok tokT2 }

/-- Transport oracle: the first attempt is rejected as unauthenticated, the
retry succeeds; refresh succeeds with `t2`. -/
def envAuthThenOk : Env Nat :=
  { attempt := fun k _ => if k = 0 then .error .auth else .ok 7,
    refresh := .ok tokT2 }

/-- Transport oracle: every attempt is rejected as unauthenticated; refresh
succeeds with `t2`. -/
def envAuthTwice : Env Nat :=
  { attempt := fun _ _ => .error .auth, refresh := .ok tokT2 }

/-- Transport oracle: every attempt fails with a non-auth `ResponseError`. -/
def envRespErr : Env Nat :=
  { attempt := fun _ _ => .error .response, refresh := .ok tokT2 }

/-- A `200 OK` streaming response declaring `application/json`. -/
def respBadCT : StreamResp :=
  { status := 200, content_type := "application/json", lines := ["data: 1"] }

/-- A well-formed streaming response with one chunk and the sentinel. -/
def respGood : StreamResp :=
  { status := 200, content_type := "text/event-stream",
    lines := ["event: x", "data: 1", "data: [DONE]"] }

/-- Streaming oracle: every open returns the bad-content-type response. -/
def envStreamBadCT : StreamEnv :=
  { attempt := fun _ _ => respBadCT, refresh := .ok tokT2 }

/-- Streaming oracle: the first open is rejected as unauthenticated, the
reopen succeeds. -/
def envStreamRetry : StreamEnv :=
  { attempt := fun k _ =>
      if k = 0 then { status := 401, content_type := "", lines := [] }
      else respGood,
    refresh := .ok tokT2 }

/-! ## Helper lemmas -/

/-- With authentication disabled the `token` property is `None` even when an
access token is held. -/
theorem token_none_of_no_auth (c : ClientState)
    (hu : c.settings.use_auth = false) : c.token = none := by
  cases hat : c.access_token <;> simp [ClientState.token, hu, hat]

theorem hasAuthHeader_append (l1 l2 : List (String × String)) :
    hasAuthHeader (l1 ++ l2) = (hasAuthHeader l1 || hasAuthHeader l2) := by
  simp [hasAuthHeader]

theorem any_auth_opt (b : Bool) (k v : String)
    (hk : (k == "Authorization") = false) :
    (if b then [(k, v)] else ([] : List (String × String))).any
      (fun p => p.1 == "Authorization") = false := by
  cases b <;> simp [hk]

theorem hasAuthHeader_postChat (tok cid sid rid : Option String) :
    hasAuthHeader (postChatHeaders tok cid sid rid) = truthyOpt tok := by
  unfold hasAuthHeader postChatHeaders
  simp only [List.any_append]
  rw [any_auth_opt (truthyOpt cid) "X-Client-ID" (cid.getD "") (by decide),
      any_auth_opt (truthyOpt sid) "X-Session-ID" (sid.getD "") (by decide),
      any_auth_opt (truthyOpt rid) "X-Request-ID" (rid.getD "") (by decide)]
  cases htok : truthyOpt tok <;> simp [htok]

theorem hasAuthHeader_streamChat (tok cid sid rid : Option String) :
    hasAuthHeader (streamChatHeaders tok cid sid rid) = truthyOpt tok := by
  unfold hasAuthHeader streamChatHeaders
  simp only [List.any_append, List.any_cons, List.any_nil]
  rw [any_auth_opt (truthyOpt cid) "X-Client-ID" (cid.getD "") (by decide),
      any_auth_opt (truthyOpt sid) "X-Session-ID" (sid.getD "") (by decide),
      any_auth_opt (truthyOpt rid) "X-Request-ID" (rid.getD "") (by decide)]
  cases htok : truthyOpt tok <;> simp [htok, EVENT_STREAM]

/-! ## Claim C2 -/

/-- Claim C2, counterexample: the decoder does not stop at the `[DONE]`
sentinel — it merely skips that line, so a parseable `data:` line placed after
the sentinel still yields a chunk, refuting "no chunk from any line after the
sentinel is ever yielded". -/
theorem sse_sentinel_not_terminal_counterexample :
    decodeLines sampleParse ["data: [DONE]", "data: 1"] = ([1], none) ∧
    (decodeLines sampleParse ["data: [DONE]", "data: 1"]).1 ≠ [] := by
  decide

/-- Claim C2 (amended): a `data` line whose value is the sentinel `[DONE]`
yields no chunk and no error; the decoder skips it and continues with the
remaining lines (so chunks from later lines can still be yielded), and the
sequence ends cleanly when the line sequence ends. -/
theorem sse_sentinel_skipped {α : Type} (parseRaw : String → Option α)
    (line : String) (rest : List String)
    (h : pyPartition line ": " = ("data", "[DONE]")) :
    parseChunkLine parseRaw line = Except.ok none ∧
    decodeLines parseRaw (line :: rest) = decodeLines parseRaw rest ∧
    decodeLines parseRaw ([] : List String) = ([], none) := by
  have hp : parseChunkLine parseRaw line = Except.ok none := by
    simp [parseChunkLine, h]
  exact ⟨hp, by simp [decodeLines, hp], rfl⟩

/-- Witness for `sse_sentinel_skipped` at the concrete line `"data: [DONE]"`
followed by `"data: 1"`. -/
theorem sse_sentinel_skipped_witness :
    pyPartition "data: [DONE]" ": " = ("data", "[DONE]") ∧
    (parseChunkLine sampleParse "data: [DONE]" = Except.ok none ∧
     decodeLines sampleParse ["data: [DONE]", "data: 1"] =
       decodeLines sampleParse ["data: 1"] ∧
     decodeLines sampleParse ([] : List String) = ([], none)) :=
  ⟨by decide,
   sse_sentinel_skipped sampleParse "data: [DONE]" ["data: 1"] (by decide)⟩

/-! ## Claim C8 -/

/-- Claim C8: a `data` line whose value is neither the sentinel nor parseable
raises a hard decode error that terminates the sequence: the chunks yielded
are exactly those of the well-formed lines before it, the error is reported,
and nothing after the malformed line is ever yielded. -/
theorem sse_malformed_data_is_hard_error {α : Type}
    (parseRaw : String → Option α) (pre post : List String) (bad : String)
    (h1 : (pyPartition bad ": ").1 = "data")
    (h2 : (pyPartition bad ": ").2 ≠ "[DONE]")
    (h3 : parseRaw (pyPartition bad ": ").2 = none)
    (h4 : (decodeLines parseRaw pre).2 = none) :
    decodeLines parseRaw (pre ++ bad :: post) =
      ((decodeLines parseRaw pre).1, some Err.chunkDecode) := by
  have hbad : parseChunkLine parseRaw bad = Except.error Err.chunkDecode := by
    simp [parseChunkLine, h1, h2, h3]
  induction pre with
  | nil => simp [decodeLines, hbad]
  | cons l ls ih =>
    rcases hl : parseChunkLine parseRaw l with e | oc
    · exfalso
      simp [decodeLines, hl] at h4
    · cases oc with
      | none =>
        simp only [decodeLines, hl] at h4 ⊢
        exact ih h4
      | some chunk =>
        simp only [decodeLines, hl] at h4 ⊢
        exact Prod.ext (by simp [ih h4]) (by simp [ih h4])

/-- Witness for `sse_malformed_data_is_hard_error`: two good lines, then
`"data: oops"`, then a line that would parse — only the first chunk appears,
then the decode error. -/
theorem sse_malformed_witness :
    ((pyPartition "data: oops" ": ").1 = "data" ∧
     (pyPartition "data: oops" ": ").2 ≠ "[DONE]" ∧
     sampleParse (pyPartition "data: oops" ": ").2 = none ∧
     (decodeLines sampleParse ["event: x", "data: 1"]).2 = none) ∧
    decodeLines sampleParse
        (["event: x", "data: 1"] ++ "data: oops" :: ["data: 2"]) =
      ((decodeLines sampleParse ["event: x", "data: 1"]).1,
       some Err.chunkDecode) :=
  ⟨⟨by decide, by decide, by decide, by decide⟩,
   sse_malformed_data_is_hard_error sampleParse ["event: x", "data: 1"]
     ["data: 2"] "data: oops" (by decide) (by decide) (by decide) (by decide)⟩

/-! ## Claim C1 -/

/-- Claim C1: with authentication enabled and a token held, the non-streaming
dispatcher runs the attempt once and returns its result with no refresh on
success; on `AuthenticationError` it resets the token, refreshes once, runs
the attempt exactly one more time and returns that outcome unconditionally;
in every case at most two attempts and at most one refresh occur, and exactly
two attempts occur only when the first raised `AuthenticationError` and the
refresh succeeded.  The async dispatcher behaves identically. -/
theorem nonstream_retry_once {α : Type} (env : Env α) (c : ClientState)
    (hu : c.settings.use_auth = true) (ht : c.access_token.isSome = true) :
    (∀ v, env.attempt 0 c.token = Except.ok v →
        dispatchSync env c = (Except.ok v, c, [Event.attemptCall c.token])) ∧
    (∀ c2, env.attempt 0 c.token = Except.error Err.auth →
        updateToken env.refresh (resetToken c) = Except.ok c2 →
        dispatchSync env c =
          (env.attempt 1 c2.token, c2,
            [Event.attemptCall c.token, Event.tokenReset, Event.tokenRefresh,
             Event.attemptCall c2.token])) ∧
    countAttempts (dispatchSync env c).2.2 ≤ 2 ∧
    countRefreshes (dispatchSync env c).2.2 ≤ 1 ∧
    (countAttempts (dispatchSync env c).2.2 = 2 →
      env.attempt 0 c.token = Except.error Err.auth ∧
      ∃ c2, updateToken env.refresh (resetToken c) = Except.ok c2) ∧
    dispatchAsync env c = dispatchSync env c := by
  have hcv : checkValidityToken c = true := ht
  refine ⟨?_, ?_, ?_, ?_, ?_, ?_⟩
  · intro v h0
    simp [dispatchSync, hu, hcv, h0]
  · intro c2 h0 hr
    simp [dispatchSync, hu, hcv, h0, hr]
  · rcases h0 : env.attempt 0 c.token with e | v
    · cases e <;>
        [(rcases hr : updateToken env.refresh (resetToken c) with e2 | c2 <;>
          simp [dispatchSync, hu, hcv, h0, hr, countAttempts, isAttemptEvent]);
         simp [dispatchSync, hu, hcv, h0, countAttempts, isAttemptEvent];
         simp [dispatchSync, hu, hcv, h0, countAttempts, isAttemptEvent];
         simp [dispatchSync, hu, hcv, h0, countAttempts, isAttemptEvent];
         simp [dispatchSync, hu, hcv, h0, countAttempts, isAttemptEvent]]
    · simp [dispatchSync, hu, hcv, h0, countAttempts, isAttemptEvent]
  · rcases h0 : env.attempt 0 c.token with e | v
    · cases e <;>
        [(rcases hr : updateToken env.refresh (resetToken c) with e2 | c2 <;>
          simp [dispatchSync, hu, hcv, h0, hr, countRefreshes, isRefreshEvent]);
         simp [dispatchSync, hu, hcv, h0, countRefreshes, isRefreshEvent];
         simp [dispatchSync, hu, hcv, h0, countRefreshes, isRefreshEvent];
         simp [dispatchSync, hu, hcv, h0, countRefreshes, isRefreshEvent];
         simp [dispatchSync, hu, hcv, h0, countRefreshes, isRefreshEvent]]
    · simp [dispatchSync, hu, hcv, h0, countRefreshes, isRefreshEvent]
  · intro h2
    rcases h0 : env.attempt 0 c.token with e | v
    · cases e
      · rcases hr : updateToken env.refresh (resetToken c) with e2 | c2
        · exfalso
          simp [dispatchSync, hu, hcv, h0, hr, countAttempts, isAttemptEvent]
            at h2
        · exact ⟨rfl, c2, rfl⟩
      all_goals
        exfalso
        simp [dispatchSync, hu, hcv, h0, countAttempts, isAttemptEvent] at h2
    · exfalso
      simp [dispatchSync, hu, hcv, h0, countAttempts, isAttemptEvent] at h2
  · rfl

/-- Witness for `nonstream_retry_once`: the first attempt is rejected, refresh
succeeds with `t2`, the retry succeeds — two attempts, one refresh, the retry
outcome returned. -/
theorem nonstream_retry_once_witness :
    (stateHeld.settings.use_auth = true ∧
     stateHeld.access_token.isSome = true ∧
     envAuthThenOk.attempt 0 stateHeld.token = Except.error Err.auth ∧
     updateToken envAuthThenOk.refresh (resetToken stateHeld) =
       Except.ok stateUpd) ∧
    dispatchSync envAuthThenOk stateHeld =
      (envAuthThenOk.attempt 1 stateUpd.token, stateUpd,
        [Event.attemptCall stateHeld.token, Event.tokenReset,
         Event.tokenRefresh, Event.attemptCall stateUpd.token]) :=
  ⟨⟨rfl, rfl, by rfl, by rfl⟩,
   (nonstream_retry_once envAuthThenOk stateHeld rfl rfl).2.1 stateUpd
     (by rfl) (by rfl)⟩

/-! ## Claim C5 -/

/-- Claim C5: a non-auth failure on the attempt (such as `ResponseError`, which
`_build_response` raises for any status other than `200` and `401`) is
propagated unchanged with no retry, no refresh, and the client state — hence
the held token — untouched. -/
theorem nonstream_other_error_propagates {α β : Type} (env : Env α)
    (c : ClientState) (parse : String → β)
    (hu : c.settings.use_auth = true) (ht : c.access_token.isSome = true)
    (e : Err) (he : e ≠ Err.auth)
    (ha : env.attempt 0 c.token = Except.error e) :
    dispatchSync env c = (Except.error e, c, [Event.attemptCall c.token]) ∧
    countAttempts (dispatchSync env c).2.2 = 1 ∧
    countRefreshes (dispatchSync env c).2.2 = 0 ∧
    (dispatchSync env c).2.1.access_token = c.access_token ∧
    (∀ resp : Resp, resp.status ≠ 200 → resp.status ≠ 401 →
      buildResponse parse resp = Except.error Err.response) := by
  have hcv : checkValidityToken c = true := ht
  have hmain :
      dispatchSync env c = (Except.error e, c, [Event.attemptCall c.token]) := by
    cases e <;> simp_all [dispatchSync, hu, hcv, ha]
  refine ⟨hmain, ?_, ?_, ?_, ?_⟩
  · simp [hmain, countAttempts, isAttemptEvent]
  · simp [hmain, countRefreshes, isRefreshEvent]
  · simp [hmain]
  · intro resp hs1 hs2
    simp [buildResponse, hs1, hs2]

/-- Witness for `nonstream_other_error_propagates`: a `ResponseError` attempt
against a held token propagates with one attempt, no refresh, token intact. -/
theorem nonstream_other_error_witness :
    (stateHeld.settings.use_auth = true ∧
     stateHeld.access_token.isSome = true ∧
     envRespErr.attempt 0 stateHeld.token = Except.error Err.response) ∧
    (dispatchSync envRespErr stateHeld =
       (Except.error Err.response, stateHeld,
        [Event.attemptCall stateHeld.token]) ∧
     (dispatchSync envRespErr stateHeld).2.1.access_token =
       stateHeld.access_token ∧
     buildResponse (fun s => s) { status := 500, body := "oops" } =
       Except.error Err.response) :=
  have h := nonstream_other_error_propagates envRespErr stateHeld
    (fun s => s) rfl rfl Err.response (by decide) (by rfl)
  ⟨⟨rfl, rfl, by rfl⟩,
   ⟨h.1, h.2.2.2.1,
    h.2.2.2.2 { status := 500, body := "oops" } (by decide) (by decide)⟩⟩

/-! ## Claim C3 -/

/-- Claim C3, counterexample: a second `AuthenticationError` on the
post-refresh retry propagates while the client still holds the freshly
refreshed token `t2` — the token is not discarded, so the claim "whenever an
authentication failure is observed the held token is set to absent" is false
for the retry attempt. -/
theorem auth_discard_counterexample :
    (dispatchSync envAuthTwice stateHeld).1 = Except.error Err.auth ∧
    (dispatchSync envAuthTwice stateHeld).2.1.access_token = some tokT2 := by
  constructor <;> rfl

/-- Claim C3 (amended): an `AuthenticationError` on the first attempt discards
the held token before the refresh runs (the reset event precedes the refresh
event, and the refresh is applied to the reset state, whose token is absent);
an `AuthenticationError` on the post-refresh retry, however, propagates with
the freshly refreshed token still held. -/
theorem auth_failure_discards_before_refresh {α : Type} (env : Env α)
    (c : ClientState) (hu : c.settings.use_auth = true)
    (ht : c.access_token.isSome = true)
    (ha : env.attempt 0 c.token = Except.error Err.auth) :
    (dispatchSync env c).2.2.take 3 =
      [Event.attemptCall c.token, Event.tokenReset, Event.tokenRefresh] ∧
    (resetToken c).access_token = none ∧
    (∀ c2, updateToken env.refresh (resetToken c) = Except.ok c2 →
      (dispatchSync env c).2.1 = c2) := by
  have hcv : checkValidityToken c = true := ht
  refine ⟨?_, rfl, ?_⟩
  · rcases hr : updateToken env.refresh (resetToken c) with e2 | c2 <;>
      simp [dispatchSync, hu, hcv, ha, hr]
  · intro c2 hr
    simp [dispatchSync, hu, hcv, ha, hr]

/-- Witness for `auth_failure_discards_before_refresh` on the double-rejection
oracle: the reset precedes the refresh, and the final state is the refreshed
one. -/
theorem auth_failure_discards_witness :
    (stateHeld.settings.use_auth = true ∧
     stateHeld.access_token.isSome = true ∧
     envAuthTwice.attempt 0 stateHeld.token = Except.error Err.auth ∧
     updateToken envAuthTwice.refresh (resetToken stateHeld) =
       Except.ok stateUpd) ∧
    ((dispatchSync envAuthTwice stateHeld).2.2.take 3 =
       [Event.attemptCall stateHeld.token, Event.tokenReset,
        Event.tokenRefresh] ∧
     (resetToken stateHeld).access_token = none ∧
     (dispatchSync envAuthTwice stateHeld).2.1 = stateUpd) :=
  have h := auth_failure_discards_before_refresh envAuthTwice stateHeld
    rfl rfl (by rfl)
  ⟨⟨rfl, rfl, by rfl, by rfl⟩,
   ⟨h.1, h.2.1, h.2.2 stateUpd (by rfl)⟩⟩

/-! ## Claim C7 -/

/-- Claim C7: with authentication disabled the `token` property is absent
(even when an access token is held), the dispatcher — sync and async alike —
runs the attempt exactly once with credential absent, invokes no refresh, and
the built request (non-streaming or streaming) carries no `Authorization`
header. -/
theorem no_auth_single_bare_attempt {α : Type} (env : Env α) (c : ClientState)
    (cid sid rid : Option String) (hu : c.settings.use_auth = false) :
    c.token = none ∧
    dispatchSync env c = (env.attempt 0 none, c, [Event.attemptCall none]) ∧
    dispatchAsync env c = (env.attempt 0 none, c, [Event.attemptCall none]) ∧
    countAttempts (dispatchSync env c).2.2 = 1 ∧
    countRefreshes (dispatchSync env c).2.2 = 0 ∧
    hasAuthHeader (postChatHeaders c.token cid sid rid) = false ∧
    hasAuthHeader (streamChatHeaders c.token cid sid rid) = false := by
  have htok : c.token = none := token_none_of_no_auth c hu
  have hmain :
      dispatchSync env c = (env.attempt 0 none, c, [Event.attemptCall none]) := by
    simp [dispatchSync, hu, htok]
  refine ⟨htok, hmain, ?_, ?_, ?_, ?_, ?_⟩
  · simp [dispatchAsync, hu, htok]
  · simp [hmain, countAttempts, isAttemptEvent]
  · simp [hmain, countRefreshes, isRefreshEvent]
  · rw [htok, hasAuthHeader_postChat]
    rfl
  · rw [htok, hasAuthHeader_streamChat]
    rfl

/-- Witness for `no_auth_single_bare_attempt` on a client that holds an access
token but has `use_auth = False`. -/
theorem no_auth_single_bare_attempt_witness :
    (stateNoAuth.settings.use_auth = false ∧
     stateNoAuth.access_token = some tokT1) ∧
    (stateNoAuth.token = none ∧
     dispatchSync envOk stateNoAuth =
       (envOk.attempt 0 none, stateNoAuth, [Event.attemptCall none]) ∧
     countRefreshes (dispatchSync envOk stateNoAuth).2.2 = 0 ∧
     hasAuthHeader (postChatHeaders stateNoAuth.token none none none) = false) :=
  have h := no_auth_single_bare_attempt envOk stateNoAuth none none none rfl
  ⟨⟨rfl, rfl⟩, ⟨h.1, h.2.1, h.2.2.2.2.1, h.2.2.2.2.2.1⟩⟩

/-! ## Claim C10 -/

/-- Claim C10: both endpoints attach an `Authorization` header exactly when
the supplied credential is truthy, i.e. a non-empty string; an absent or
empty-string credential produces a request with no `Authorization` header. -/
theorem auth_header_iff_truthy_credential (tok cid sid rid : Option String) :
    hasAuthHeader (postChatHeaders tok cid sid rid) = truthyOpt tok ∧
    hasAuthHeader (streamChatHeaders tok cid sid rid) = truthyOpt tok ∧
    truthyOpt none = false ∧
    truthyOpt (some "") = false ∧
    (∀ s : String, truthyOpt (some s) = true ↔ s ≠ "") :=
  ⟨hasAuthHeader_postChat tok cid sid rid,
   hasAuthHeader_streamChat tok cid sid rid,
   rfl, by decide,
   fun s => by simp [truthyOpt]⟩

/-! ## Claim C6 -/

/-- Claim C6: a streaming response with status `200` whose content type (the
part of the `content-type` header before any `";"` parameter) differs from
`text/event-stream` makes the stream attempt raise `TransportError` at open;
when the first attempt of a streaming call hits this, the caller sees the
`TransportError` as terminal with no chunk ever yielded. -/
theorem stream_content_type_mismatch {α : Type} (parseRaw : String → Option α)
    (resp : StreamResp) (h200 : resp.status = 200)
    (hct : (pyPartition resp.content_type ";").1 ≠ EVENT_STREAM) :
    streamChatRun parseRaw resp = Except.error Err.transport ∧
    (∀ (env : StreamEnv) (c : ClientState),
      c.settings.use_auth = true → c.access_token.isSome = true →
      env.attempt 0 c.token = resp →
      streamSync parseRaw env c =
        (([], some Err.transport), c, [Event.attemptCall c.token])) := by
  have hrun : streamChatRun parseRaw resp = Except.error Err.transport := by
    simp [streamChatRun, checkResponse, checkContentType, h200, hct]
  refine ⟨hrun, ?_⟩
  intro env c hu ht h0
  have hcv : checkValidityToken c = true := ht
  rw [← h0] at hrun
  simp [streamSync, hu, hcv, hrun]

/-- Witness for `stream_content_type_mismatch`: a `200` response declaring
`application/json` makes the streaming call fail with `TransportError` and
yield nothing. -/
theorem stream_content_type_mismatch_witness :
    (respBadCT.status = 200 ∧
     (pyPartition respBadCT.content_type ";").1 ≠ EVENT_STREAM ∧
     stateHeld.settings.use_auth = true ∧
     stateHeld.access_token.isSome = true ∧
     envStreamBadCT.attempt 0 stateHeld.token = respBadCT) ∧
    (streamChatRun sampleParse respBadCT = Except.error Err.transport ∧
     streamSync sampleParse envStreamBadCT stateHeld =
       (([], some Err.transport), stateHeld,
        [Event.attemptCall stateHeld.token])) :=
  have h := stream_content_type_mismatch sampleParse respBadCT rfl (by decide)
  ⟨⟨rfl, by decide, rfl, rfl, rfl⟩,
   ⟨h.1, h.2 envStreamBadCT stateHeld rfl rfl rfl⟩⟩

/-! ## Claim C4 -/

/-- Claim C4: every streaming call makes at most two stream opens and at most
one refresh; two opens happen only when authentication is on, a token is held,
and the first open was rejected as unauthenticated — i.e. before it yielded
anything — so the silent retry happens only before the first chunk is
observed; and once the first open succeeds, the call consists of exactly that
one attempt, so any mid-stream failure it carries is surfaced as terminal and
never retried. -/
theorem stream_retry_only_before_first_chunk {α : Type}
    (parseRaw : String → Option α) (env : StreamEnv) (c : ClientState) :
    countAttempts (streamSync parseRaw env c).2.2 ≤ 2 ∧
    countRefreshes (streamSync parseRaw env c).2.2 ≤ 1 ∧
    (countAttempts (streamSync parseRaw env c).2.2 = 2 →
      streamChatRun parseRaw (env.attempt 0 c.token) = Except.error Err.auth) ∧
    (∀ res, streamChatRun parseRaw (env.attempt 0 c.token) = Except.ok res →
      c.settings.use_auth = true → c.access_token.isSome = true →
      streamSync parseRaw env c = (res, c, [Event.attemptCall c.token])) := by
  cases hu : c.settings.use_auth with
  | false =>
    rcases h0 : streamChatRun parseRaw (env.attempt 0 c.token) with e | res <;>
      refine ⟨?_, ?_, ?_, ?_⟩ <;>
        simp [streamSync, hu, h0, countAttempts, countRefreshes,
          isAttemptEvent, isRefreshEvent]
  | true =>
    cases hcv : checkValidityToken c with
    | false =>
      have hts : c.access_token.isSome = false := by
        simpa [checkValidityToken] using hcv
      rcases hr : updateToken env.refresh c with e | c2
      · refine ⟨?_, ?_, ?_, ?_⟩ <;>
          simp [streamSync, hu, hcv, hr, countAttempts, countRefreshes,
            isAttemptEvent, isRefreshEvent, hts]
      · rcases h1 : streamChatRun parseRaw (env.attempt 0 c2.token)
            with e | res <;>
          refine ⟨?_, ?_, ?_, ?_⟩ <;>
            simp [streamSync, hu, hcv, hr, h1, countAttempts, countRefreshes,
              isAttemptEvent, isRefreshEvent, hts]
    | true =>
      rcases h0 : streamChatRun parseRaw (env.attempt 0 c.token) with e | res
      · cases e with
        | auth =>
          rcases hr : updateToken env.refresh (resetToken c) with e2 | c2
          · refine ⟨?_, ?_, ?_, ?_⟩ <;>
              simp [streamSync, hu, hcv, h0, hr, countAttempts, countRefreshes,
                isAttemptEvent, isRefreshEvent]
          · rcases h1 : streamChatRun parseRaw (env.attempt 1 c2.token)
                with e2 | res2 <;>
              refine ⟨?_, ?_, ?_, ?_⟩ <;>
                simp [streamSync, hu, hcv, h0, hr, h1, countAttempts,
                  countRefreshes, isAttemptEvent, isRefreshEvent]
        | response =>
          refine ⟨?_, ?_, ?_, ?_⟩ <;>
            simp [streamSync, hu, hcv, h0, countAttempts, countRefreshes,
              isAttemptEvent, isRefreshEvent]
        | transport =>
          refine ⟨?_, ?_, ?_, ?_⟩ <;>
            simp [streamSync, hu, hcv, h0, countAttempts, countRefreshes,
              isAttemptEvent, isRefreshEvent]
        | chunkDecode =>
          refine ⟨?_, ?_, ?_, ?_⟩ <;>
            simp [streamSync, hu, hcv, h0, countAttempts, countRefreshes,
              isAttemptEvent, isRefreshEvent]
        | authBackend =>
          refine ⟨?_, ?_, ?_, ?_⟩ <;>
            simp [streamSync, hu, hcv, h0, countAttempts, countRefreshes,
              isAttemptEvent, isRefreshEvent]
      · refine ⟨?_, ?_, ?_, ?_⟩
        · simp [streamSync, hu, hcv, h0, countAttempts, isAttemptEvent]
        · simp [streamSync, hu, hcv, h0, countRefreshes, isRefreshEvent]
        · simp [streamSync, hu, hcv, h0, countAttempts, isAttemptEvent]
        · intro res' hres' hu' ht'
          injection hres' with hres''
          subst hres''
          simp [streamSync, hu, hcv, h0]

/-- Witness for `stream_retry_only_before_first_chunk`: on an oracle whose
first open is rejected (`401`) and whose reopen streams one chunk, the call
makes exactly two opens and the first open indeed failed with
`AuthenticationError`. -/
theorem stream_retry_witness :
    countAttempts (streamSync sampleParse envStreamRetry stateHeld).2.2 = 2 ∧
    streamChatRun sampleParse (envStreamRetry.attempt 0 stateHeld.token) =
      Except.error Err.auth :=
  ⟨by decide,
   (stream_retry_only_before_first_chunk sampleParse envStreamRetry
      stateHeld).2.2.1 (by decide)⟩

/-! ## Claim C9 -/

/-- Claim C9: the synchronous dispatchers (`_decorator`, `stream`,
`_update_token`) and the asynchronous dispatchers (`_adecorator`, `astream`,
`_aupdate_token`) implement the same retry-once state machine: on every call
description, client state and sequence of transport/refresh outcomes they
produce identical results, final states, and traces of token reads, resets,
refreshes and attempts. -/
theorem sync_async_same_state_machine :
    (∀ (α : Type) (env : Env α) (c : ClientState),
      dispatchSync env c = dispatchAsync env c) ∧
    (∀ (α : Type) (parseRaw : String → Option α) (env : StreamEnv)
      (c : ClientState),
      streamSync parseRaw env c = streamAsync parseRaw env c) ∧
    (∀ (refresh : Except Err AccessToken) (c : ClientState),
      updateToken refresh c = aupdateToken refresh c) :=
  ⟨fun _ _ _ => rfl, fun _ _ _ _ => rfl, fun _ _ => rfl⟩

end GigaChat
